import Mathlib

/-!
Shallow embedding of the devbooks-api backend (NestJS controller
`src/app.controller.ts` over the Prisma schema `prisma/schema.prisma`).

The persistence layer (`UserService`, `MyBooksService`) is a thin wrapper
around Prisma CRUD calls; we model the store as in-memory lists with the
standard Prisma semantics of the calls made by the controller:
`findOne` returns the first record matching the filter, `update` rewrites
the columns of the record selected by its primary key, `create` appends a
fresh record.  External collaborators (bcrypt, the JWT signer, the Google
Books catalog) are passed in as explicit function arguments, never
interpreted.
-/

namespace Devbooks

/-- The `BookState` enum from `prisma/schema.prisma`. -/
inductive BookState where
  | IS_READING
  | READ
  | WANTS_TO_READ
deriving Repr, DecidableEq

/-- The `User` model from `prisma/schema.prisma` (id, optional name, email, optional avatar, password). -/
structure User where
  id : Nat
  name : Option String
  email : String
  avatar : Option String
  password : String
deriving Repr, DecidableEq

/-- The `volumeInfo` part of the `GoogleBook` interface in `app.controller.ts`. -/
structure VolumeInfo where
  title : String
  subtitle : String
  description : String
  thumbnail : Option String
  pageCount : Int
deriving Repr, DecidableEq

/-- The `GoogleBook` interface in `app.controller.ts`: the payload returned by
the Google Books volume lookup. -/
structure GoogleBook where
  id : String
  volumeInfo : VolumeInfo
deriving Repr, DecidableEq

/-- The `MyBooks` model from `prisma/schema.prisma`: one reading-list record per
row.  The `book` column is the cached catalog JSON payload; in this
development the only values ever stored there are `GoogleBook` responses, so
we give it that type. -/
structure MyBook where
  id : Nat
  userId : Nat
  bookId : String
  bookState : BookState
  currentPage : Option Int
  totalPages : Int
  book : GoogleBook
deriving Repr, DecidableEq

/-- The whole relational store: the `User` table and the `MyBooks` table. -/
structure DB where
  users : List User
  myBooks : List MyBook
deriving Repr, DecidableEq

/-- Errors thrown by the controller: `UnauthorizedException`,
`BadRequestException`, and plain `Error` (the generic throw used by
`updateBookReading`; §7 of the spec labels that condition `NotFound`). -/
inductive AppError where
  | unauthorized (msg : String)
  | badRequest (msg : String)
  | jsError (msg : String)
deriving Repr, DecidableEq

/-- The JWT payload signed by the controller (`AccessTokenPayload`). -/
structure TokenPayload where
  scope : List String
  userId : Nat
deriving Repr, DecidableEq

/-- A signed token: the payload plus the `expiresIn` option passed to
`jwtService.sign`, normalised to seconds. -/
structure SignedToken where
  payload : TokenPayload
  expiresInSeconds : Nat
deriving Repr, DecidableEq

/-- The `UserModel` returned to clients: the stored user after
`delete user.password` (all columns except the password hash). -/
structure UserModel where
  id : Nat
  name : Option String
  email : String
  avatar : Option String
deriving Repr, DecidableEq

/-- Drop the password column, as `delete user.password` does before the
user record is placed in a response. -/
def toUserModel (u : User) : UserModel :=
  { id := u.id, name := u.name, email := u.email, avatar := u.avatar }

/-- The `SignInResponse` interface from `app.controller.ts`. -/
structure SignInResponse where
  user : UserModel
  accessToken : SignedToken
  refreshToken : SignedToken
deriving Repr, DecidableEq

/-- The `SignUpResponse` interface from `app.controller.ts`. -/
structure SignUpResponse where
  user : UserModel
deriving Repr, DecidableEq

/-- The `RefreshResponse` interface from `app.controller.ts`. -/
structure RefreshResponse where
  accessToken : SignedToken
  refreshToken : SignedToken
deriving Repr, DecidableEq

/-- The userService.findOne call filtering by email: first user whose email matches. -/
def UserService.findOneByEmail (users : List User) (email : String) : Option User :=
  users.find? (fun u => u.email == email)

/-- The userService.findOne call filtering by id: first user whose id matches. -/
def UserService.findOneById (users : List User) (id : Nat) : Option User :=
  users.find? (fun u => u.id == id)

/-- The myBooksService.findOne call filtering by bookId and userId: first reading-list record
matching both the catalog book id and the authenticated user id. -/
def MyBooksService.findOne (books : List MyBook) (bookId : String) (userId : Nat) :
    Option MyBook :=
  books.find? (fun b => b.bookId == bookId && b.userId == userId)

/-- The myBooksService.updateMyBook call keyed by primary id: rewrite the
columns (given as `data`) of every record selected by the primary key. -/
def MyBooksService.updateMyBook (books : List MyBook) (id : Nat)
    (data : MyBook → MyBook) : List MyBook :=
  books.map (fun b => if b.id == id then data b else b)

/-!
Handler POST /user/signin (`signin`)

`bcrypt.compare` is passed in as the abstract collaborator `compare`.
The expiresIn option "3 hours" is 10800 seconds; "1 hour" is 3600 seconds.
-/

def signin (users : List User) (email password : String)
    (compare : String → String → Bool) : Except AppError SignInResponse :=
  match UserService.findOneByEmail users email with
  | none => .error (.unauthorized "Invalid credentials")
  | some user =>
    if compare password user.password then
      .ok { user := toUserModel user
            accessToken :=
              { payload := { scope := ["accessToken"], userId := user.id }
                expiresInSeconds := 3600 }
            refreshToken :=
              { payload := { scope := ["refreshToken"], userId := user.id }
                expiresInSeconds := 10800 } }
    else
      .error (.unauthorized "Invalid credentials")

/-!
Handler POST /user/signup (`signup`)

`bcrypt.hash(password, saltOrRounds)` is the abstract collaborator `hash`
applied to the password and to `saltOrRounds = 10`; `freshId` is the id the
autoincrement sequence assigns to the created row (avatar is not
supplied, so the column is unset).
-/

def signup (users : List User) (name email password : String)
    (hash : String → Nat → String) (freshId : Nat) :
    Except AppError (List User × SignUpResponse) :=
  match UserService.findOneByEmail users email with
  | some _ => .error (.badRequest "User already exists")
  | none =>
    let user : User :=
      { id := freshId, name := some name, email := email
        avatar := none, password := hash password 10 }
    .ok (users ++ [user], { user := toUserModel user })

/-- The user table after a `signup` request: a thrown exception leaves the
store untouched (no write happens before the throw). -/
def signupUsers (users : List User) (name email password : String)
    (hash : String → Nat → String) (freshId : Nat) : List User :=
  match signup users name email password hash freshId with
  | .ok (users2, _) => users2
  | .error _ => users

/-!
Handler POST /user/refresh (`refresh`)

`jwtService.verifyAsync` on the presented bearer token is the abstract
verification outcome `verified` (`none` when verification throws).  All
three failure paths land in the same `catch`, which throws
`UnauthorizedException` with message "Cannot refresh session".  The reissued pair uses
the expiresIn options "1 minute" (60 seconds) and "30 second" (30 seconds).
-/

def refresh (verified : Option TokenPayload) (users : List User) :
    Except AppError RefreshResponse :=
  match verified with
  | none => .error (.unauthorized "Cannot refresh session")
  | some payload =>
    if payload.scope.contains "refreshToken" then
      match UserService.findOneById users payload.userId with
      | none => .error (.unauthorized "Cannot refresh session")
      | some user =>
        .ok { refreshToken :=
                { payload := { scope := ["refreshToken"], userId := user.id }
                  expiresInSeconds := 60 }
              accessToken :=
                { payload := { scope := ["accessToken"], userId := user.id }
                  expiresInSeconds := 30 } }
    else
      .error (.unauthorized "Cannot refresh session")

/-!
Handler POST /books/my-books (`addToMyBooks`)

`catalog` is the Google Books volume lookup (the axios GET); `freshId` is
the autoincrement id for a created row.  When an entry for the
(bookId, userId) pair exists, only its `bookState` column is rewritten;
otherwise a new row is created from the catalog payload with `currentPage`
left unset.
-/

def addToMyBooks (db : DB) (userId : Nat) (bookId : String)
    (bookState : BookState) (catalog : String → GoogleBook) (freshId : Nat) :
    DB × MyBook :=
  match MyBooksService.findOne db.myBooks bookId userId with
  | some existing =>
    let data : MyBook → MyBook := fun b => { b with bookState := bookState }
    ({ db with
        myBooks := MyBooksService.updateMyBook db.myBooks existing.id data },
     data existing)
  | none =>
    let response := catalog bookId
    let myBook : MyBook :=
      { id := freshId, userId := userId, bookId := bookId
        bookState := bookState, currentPage := none
        totalPages := response.volumeInfo.pageCount, book := response }
    ({ db with myBooks := db.myBooks ++ [myBook] }, myBook)

/-!
Handler PUT /books/:id/reading (`updateBookReading`)

The route parameter `:id` is the catalog book id; `page` comes from the
request body.  If no entry exists for the pair the handler throws a plain
JavaScript error with message "Cannot update reading position".  Otherwise
`isPageGreaterThanTotalPage = page >= entry.totalPages` selects either the
clamp-to-total/READ update or the plain page update.
-/

def updateBookReading (db : DB) (userId : Nat) (id : String) (page : Int) :
    Except AppError (DB × MyBook) :=
  match MyBooksService.findOne db.myBooks id userId with
  | none => .error (.jsError "Cannot update reading position")
  | some entry =>
    let isPageGreaterThanTotalPage : Bool := page ≥ entry.totalPages
    let data : MyBook → MyBook := fun b =>
      { b with
          currentPage :=
            some (if isPageGreaterThanTotalPage then entry.totalPages else page)
          bookState :=
            if isPageGreaterThanTotalPage then .READ else entry.bookState }
    .ok ({ db with
            myBooks := MyBooksService.updateMyBook db.myBooks entry.id data },
         data entry)

/-- The store after a `PUT /books/:id/reading` request: a thrown exception
leaves it untouched (the throw happens before any write). -/
def updateBookReadingDB (db : DB) (userId : Nat) (id : String) (page : Int) : DB :=
  match updateBookReading db userId id page with
  | .ok (db2, _) => db2
  | .error _ => db

/-- The §3 invariant on a reading-list record:
`0 <= currentPage <= totalPages` once `currentPage` is set. -/
def pageInvariant (b : MyBook) : Bool :=
  b.currentPage.all (fun p => 0 ≤ p && p ≤ b.totalPages)

/-! ### Concrete sample data used by witnesses and counterexamples -/

/-- A concrete catalog payload (300 pages). -/
def exBook : GoogleBook :=
  { id := "b1"
    volumeInfo :=
      { title := "T", subtitle := "S", description := "D"
        thumbnail := none, pageCount := 300 } }

/-- A concrete reading-list record: user 1 is at page 100 of 300 in book
"b1". -/
def exEntry : MyBook :=
  { id := 7, userId := 1, bookId := "b1", bookState := .WANTS_TO_READ
    currentPage := some 100, totalPages := 300, book := exBook }

/-- A concrete user record. -/
def exUser : User :=
  { id := 1, name := some "Alice", email := "alice@example.com"
    avatar := none, password := "storedhash" }

/-- A concrete store holding `exUser` and `exEntry`. -/
def exDB : DB := { users := [exUser], myBooks := [exEntry] }

/-- The pair `refresh` reissues for user 1. -/
def exRefreshResponse : RefreshResponse :=
  { refreshToken :=
      { payload := { scope := ["refreshToken"], userId := 1 }
        expiresInSeconds := 60 }
    accessToken :=
      { payload := { scope := ["accessToken"], userId := 1 }
        expiresInSeconds := 30 } }

/-- The pair `signin` issues for the sample user. -/
def exSignInResponse : SignInResponse :=
  { user := toUserModel exUser
    accessToken :=
      { payload := { scope := ["accessToken"], userId := 1 }
        expiresInSeconds := 3600 }
    refreshToken :=
      { payload := { scope := ["refreshToken"], userId := 1 }
        expiresInSeconds := 10800 } }

end Devbooks

namespace Devbooks

/-! ## Theorems -/

/-- C1: for every existing reading-list entry and every reported page,
`updateBookReading` (PUT /books/:id/reading) succeeds, and the updated
record has `currentPage = entry.totalPages` with `bookState = READ` when
`page >= entry.totalPages`, and otherwise `currentPage = page` with the
prior state of the entry; the updated record is stored. -/
theorem recordProgress_clamp_and_state (db : DB) (userId : Nat) (id : String)
    (page : Int) (entry : MyBook)
    (h : MyBooksService.findOne db.myBooks id userId = some entry) :
    ∃ db2 updated, updateBookReading db userId id page = .ok (db2, updated) ∧
      updated ∈ db2.myBooks ∧
      (page ≥ entry.totalPages →
        updated.currentPage = some entry.totalPages ∧ updated.bookState = .READ) ∧
      (¬ page ≥ entry.totalPages →
        updated.currentPage = some page ∧ updated.bookState = entry.bookState) := by
  have hmem : entry ∈ db.myBooks := List.mem_of_find?_eq_some h
  unfold updateBookReading
  rw [h]
  refine ⟨_, _, rfl, ?_, ?_, ?_⟩
  · exact List.mem_map.mpr ⟨entry, hmem, by simp⟩
  · intro hge
    simp [hge]
  · intro hge
    simp [hge]

/-- Witness for `recordProgress_clamp_and_state` on the sample store, with
a reported page of 500 against 300 total pages. -/
theorem recordProgress_clamp_and_state_witness :
    MyBooksService.findOne exDB.myBooks "b1" 1 = some exEntry ∧
    ∃ db2 updated, updateBookReading exDB 1 "b1" 500 = .ok (db2, updated) ∧
      updated ∈ db2.myBooks ∧
      ((500 : Int) ≥ exEntry.totalPages →
        updated.currentPage = some exEntry.totalPages ∧ updated.bookState = .READ) ∧
      (¬ (500 : Int) ≥ exEntry.totalPages →
        updated.currentPage = some 500 ∧ updated.bookState = exEntry.bookState) :=
  ⟨by decide, recordProgress_clamp_and_state exDB 1 "b1" 500 exEntry (by decide)⟩

/-- C5: after any successful `updateBookReading` call the updated record
satisfies `currentPage <= totalPages`, regardless of the reported page. -/
theorem recordProgress_le_totalPages (db : DB) (userId : Nat) (id : String)
    (page : Int) (entry : MyBook)
    (h : MyBooksService.findOne db.myBooks id userId = some entry) :
    ∃ db2 updated c, updateBookReading db userId id page = .ok (db2, updated) ∧
      updated.currentPage = some c ∧ c ≤ updated.totalPages := by
  unfold updateBookReading
  rw [h]
  by_cases hge : page ≥ entry.totalPages
  · refine ⟨_, _, entry.totalPages, rfl, ?_, ?_⟩
    · simp [hge]
    · simp
  · refine ⟨_, _, page, rfl, ?_, ?_⟩
    · simp [hge]
    · simp
      omega

/-- Witness for `recordProgress_le_totalPages` on the sample store with a
negative reported page. -/
theorem recordProgress_le_totalPages_witness :
    ∃ db2 updated c, updateBookReading exDB 1 "b1" (-3) = .ok (db2, updated) ∧
      updated.currentPage = some c ∧ c ≤ updated.totalPages :=
  recordProgress_le_totalPages exDB 1 "b1" (-3) exEntry (by decide)

/-- C3: when no reading-list entry exists for the (userId, bookId) pair,
`updateBookReading` throws (a plain JavaScript error with message
"Cannot update reading position", the condition that section 7 of the
spec calls `NotFound`) and the store
is unchanged: no entry is created or modified. -/
theorem recordProgress_missing_entry (db : DB) (userId : Nat) (id : String)
    (page : Int)
    (h : MyBooksService.findOne db.myBooks id userId = none) :
    updateBookReading db userId id page =
      .error (.jsError "Cannot update reading position") ∧
    updateBookReadingDB db userId id page = db := by
  constructor
  · unfold updateBookReading
    rw [h]
  · unfold updateBookReadingDB updateBookReading
    rw [h]

/-- Witness for `recordProgress_missing_entry`: user 1 has no entry for
book "zz" in the sample store. -/
theorem recordProgress_missing_entry_witness :
    updateBookReading exDB 1 "zz" 10 =
      .error (.jsError "Cannot update reading position") ∧
    updateBookReadingDB exDB 1 "zz" 10 = exDB :=
  recordProgress_missing_entry exDB 1 "zz" 10 (by decide)

/-- C2 counterexample: the claim fails for negative reported pages.  The
sample entry (page 100 of 300) satisfies the invariant, but reporting page
-1 stores `currentPage = -1`, violating `0 <= currentPage`: the handler
only clamps from above (`page >= totalPages`), never from below. -/
theorem pageInvariant_not_preserved :
    pageInvariant exEntry = true ∧
    updateBookReading exDB 1 "b1" (-1) =
      .ok ({ users := [exUser]
             myBooks := [{ exEntry with currentPage := some (-1) }] },
           { exEntry with currentPage := some (-1) }) ∧
    pageInvariant { exEntry with currentPage := some (-1) } = false :=
  ⟨by decide, by rfl, by decide⟩

/-- C2 amended: on a store whose reading-list records have distinct primary
keys and nonnegative `totalPages`, the invariant `0 <= currentPage <=
totalPages` is preserved by `addToMyBooks` for every input, and by
`updateBookReading` for every reported page `>= 0`. -/
theorem pageInvariant_preserved (db : DB) (userId : Nat) (bookId : String)
    (s : BookState) (catalog : String → GoogleBook) (freshId : Nat)
    (page : Int)
    (hids : (db.myBooks.map MyBook.id).Nodup)
    (hInv : ∀ b ∈ db.myBooks, pageInvariant b = true)
    (hTot : ∀ b ∈ db.myBooks, 0 ≤ b.totalPages)
    (hPage : 0 ≤ page) :
    (∀ b ∈ (addToMyBooks db userId bookId s catalog freshId).1.myBooks,
      pageInvariant b = true) ∧
    (∀ b ∈ (updateBookReadingDB db userId bookId page).myBooks,
      pageInvariant b = true) := by
  constructor
  · intro b hb
    unfold addToMyBooks at hb
    cases hf : MyBooksService.findOne db.myBooks bookId userId with
    | some e =>
      rw [hf] at hb
      simp only [MyBooksService.updateMyBook, List.mem_map] at hb
      obtain ⟨a, ha, rfl⟩ := hb
      have hia := hInv a ha
      by_cases hid : a.id = e.id
      · simpa [pageInvariant, hid] using hia
      · simpa [hid] using hia
    | none =>
      rw [hf] at hb
      simp only [List.mem_append, List.mem_singleton] at hb
      cases hb with
      | inl hold => exact hInv b hold
      | inr hnew => simp [hnew, pageInvariant]
  · intro b hb
    unfold updateBookReadingDB updateBookReading at hb
    cases hf : MyBooksService.findOne db.myBooks bookId userId with
    | none =>
      rw [hf] at hb
      exact hInv b hb
    | some entry =>
      rw [hf] at hb
      have hmem : entry ∈ db.myBooks := List.mem_of_find?_eq_some hf
      have htE : (0 : Int) ≤ entry.totalPages := hTot entry hmem
      simp only [MyBooksService.updateMyBook, List.mem_map] at hb
      obtain ⟨a, ha, rfl⟩ := hb
      have hia := hInv a ha
      by_cases hid : a.id = entry.id
      · have haE : a = entry :=
          List.inj_on_of_nodup_map hids ha hmem hid
        subst haE
        simp only [pageInvariant, hid, beq_self_eq_true, if_true]
        by_cases hge : page ≥ a.totalPages
        · simpa [hge] using htE
        · simp [hge]
          omega
      · simpa [hid] using hia

/-- Witness for `pageInvariant_preserved` on the sample store with a
reported page of 150. -/
theorem pageInvariant_preserved_witness :
    (∀ b ∈ (addToMyBooks exDB 1 "b1" .IS_READING (fun _ => exBook) 8).1.myBooks,
      pageInvariant b = true) ∧
    (∀ b ∈ (updateBookReadingDB exDB 1 "b1" 150).myBooks,
      pageInvariant b = true) :=
  pageInvariant_preserved exDB 1 "b1" .IS_READING (fun _ => exBook) 8 150
    (by decide) (by decide) (by decide) (by decide)

/-- C4: when an entry for the (userId, bookId) pair exists, `addToMyBooks`
(POST /books/my-books) returns that entry with only `bookState` replaced by
the requested state (`currentPage`, `totalPages` and the cached catalog
payload `book` are untouched), the user table and the table length are
unchanged (no second entry for the pair is created), records with a
different primary key are unchanged, and the updated record is stored. -/
theorem addToMyBooks_updates_in_place (db : DB) (userId : Nat)
    (bookId : String) (s : BookState) (catalog : String → GoogleBook)
    (freshId : Nat) (e : MyBook)
    (h : MyBooksService.findOne db.myBooks bookId userId = some e) :
    (addToMyBooks db userId bookId s catalog freshId).2 =
      { e with bookState := s } ∧
    (addToMyBooks db userId bookId s catalog freshId).1.users = db.users ∧
    (addToMyBooks db userId bookId s catalog freshId).1.myBooks.length =
      db.myBooks.length ∧
    (∀ b ∈ db.myBooks, b.id ≠ e.id →
      b ∈ (addToMyBooks db userId bookId s catalog freshId).1.myBooks) ∧
    { e with bookState := s } ∈
      (addToMyBooks db userId bookId s catalog freshId).1.myBooks := by
  have hmem : e ∈ db.myBooks := List.mem_of_find?_eq_some h
  unfold addToMyBooks
  rw [h]
  refine ⟨rfl, rfl, ?_, ?_, ?_⟩
  · simp [MyBooksService.updateMyBook]
  · intro b hb hne
    exact List.mem_map.mpr ⟨b, hb, by simp [hne]⟩
  · exact List.mem_map.mpr ⟨e, hmem, by simp⟩

/-- Witness for `addToMyBooks_updates_in_place`: adding book "b1" again
with state READ on the sample store. -/
theorem addToMyBooks_updates_in_place_witness :
    (addToMyBooks exDB 1 "b1" .READ (fun _ => exBook) 8).2 =
      { exEntry with bookState := .READ } ∧
    (addToMyBooks exDB 1 "b1" .READ (fun _ => exBook) 8).1.users = exDB.users ∧
    (addToMyBooks exDB 1 "b1" .READ (fun _ => exBook) 8).1.myBooks.length =
      exDB.myBooks.length ∧
    (∀ b ∈ exDB.myBooks, b.id ≠ exEntry.id →
      b ∈ (addToMyBooks exDB 1 "b1" .READ (fun _ => exBook) 8).1.myBooks) ∧
    { exEntry with bookState := .READ } ∈
      (addToMyBooks exDB 1 "b1" .READ (fun _ => exBook) 8).1.myBooks :=
  addToMyBooks_updates_in_place exDB 1 "b1" .READ (fun _ => exBook) 8 exEntry
    (by decide)

/-- C6: when no entry for the (userId, bookId) pair exists, `addToMyBooks`
creates and returns a new record with `totalPages` equal to the catalog
field `volumeInfo.pageCount` of the catalog payload, `currentPage` unset, `bookState` equal to
the requested state, and the cached `book` column equal to the full catalog
response; the record is appended to the table and the user table is
unchanged. -/
theorem addToMyBooks_creates (db : DB) (userId : Nat) (bookId : String)
    (s : BookState) (catalog : String → GoogleBook) (freshId : Nat)
    (h : MyBooksService.findOne db.myBooks bookId userId = none) :
    ∃ created,
      addToMyBooks db userId bookId s catalog freshId =
        ({ users := db.users, myBooks := db.myBooks ++ [created] }, created) ∧
      created.totalPages = (catalog bookId).volumeInfo.pageCount ∧
      created.currentPage = none ∧
      created.bookState = s ∧
      created.book = catalog bookId ∧
      created.userId = userId ∧
      created.bookId = bookId ∧
      created.id = freshId := by
  unfold addToMyBooks
  rw [h]
  exact ⟨_, rfl, rfl, rfl, rfl, rfl, rfl, rfl, rfl⟩

/-- Witness for `addToMyBooks_creates`: adding the unknown book "new" to
the sample store. -/
theorem addToMyBooks_creates_witness :
    ∃ created,
      addToMyBooks exDB 1 "new" .WANTS_TO_READ (fun _ => exBook) 8 =
        ({ users := exDB.users, myBooks := exDB.myBooks ++ [created] },
         created) ∧
      created.totalPages = ((fun _ => exBook) "new").volumeInfo.pageCount ∧
      created.currentPage = none ∧
      created.bookState = .WANTS_TO_READ ∧
      created.book = (fun _ => exBook) "new" ∧
      created.userId = 1 ∧
      created.bookId = "new" ∧
      created.id = 8 :=
  addToMyBooks_creates exDB 1 "new" .WANTS_TO_READ (fun _ => exBook) 8
    (by decide)

/-- C7: every reissued pair from `refresh` expires in 30 seconds (access)
and 60 seconds (refresh), strictly shorter than the pair issued by
`signin` (3600 seconds access, 10800 seconds refresh). -/
theorem refresh_expiry_anomaly (v : Option TokenPayload) (users : List User)
    (users2 : List User) (email pw : String)
    (compare : String → String → Bool) (r : RefreshResponse)
    (sr : SignInResponse)
    (hr : refresh v users = .ok r)
    (hs : signin users2 email pw compare = .ok sr) :
    r.accessToken.expiresInSeconds = 30 ∧
    r.refreshToken.expiresInSeconds = 60 ∧
    sr.accessToken.expiresInSeconds = 3600 ∧
    sr.refreshToken.expiresInSeconds = 10800 ∧
    r.accessToken.expiresInSeconds < sr.accessToken.expiresInSeconds ∧
    r.refreshToken.expiresInSeconds < sr.refreshToken.expiresInSeconds := by
  unfold refresh at hr
  unfold signin at hs
  split at hr
  · exact absurd hr (by simp)
  · split at hr
    · split at hr
      · exact absurd hr (by simp)
      · injection hr with h1
        subst h1
        split at hs
        · exact absurd hs (by simp)
        · split at hs
          · injection hs with h2
            subst h2
            exact ⟨rfl, rfl, rfl, rfl, by norm_num, by norm_num⟩
          · exact absurd hs (by simp)
    · exact absurd hr (by simp)

/-- Witness for `refresh_expiry_anomaly`: a concrete verified refresh
payload for user 1 and a concrete successful sign-in. -/
theorem refresh_expiry_anomaly_witness :
    exRefreshResponse.accessToken.expiresInSeconds = 30 ∧
    exRefreshResponse.refreshToken.expiresInSeconds = 60 ∧
    exSignInResponse.accessToken.expiresInSeconds = 3600 ∧
    exSignInResponse.refreshToken.expiresInSeconds = 10800 ∧
    exRefreshResponse.accessToken.expiresInSeconds <
      exSignInResponse.accessToken.expiresInSeconds ∧
    exRefreshResponse.refreshToken.expiresInSeconds <
      exSignInResponse.refreshToken.expiresInSeconds :=
  refresh_expiry_anomaly
    (some { scope := ["refreshToken"], userId := 1 }) [exUser]
    [exUser] "alice@example.com" "pw" (fun _ _ => true)
    exRefreshResponse exSignInResponse rfl rfl

/-- C8: `refresh` fails with `Unauthorized` ("Cannot refresh session") or
succeeds, and it succeeds exactly when the presented credential verifies,
its scope list contains "refreshToken", and its subject resolves to an
existing user. -/
theorem refresh_auth_conditions (v : Option TokenPayload) (users : List User) :
    (refresh v users = .error (.unauthorized "Cannot refresh session") ∨
      ∃ r, refresh v users = .ok r) ∧
    ((∃ r, refresh v users = .ok r) ↔
      ∃ p u, v = some p ∧ p.scope.contains "refreshToken" = true ∧
        UserService.findOneById users p.userId = some u) := by
  unfold refresh
  cases v with
  | none => simp
  | some p =>
    by_cases hc : "refreshToken" ∈ p.scope
    · cases hfind : UserService.findOneById users p.userId with
      | none => simp [hc, hfind]
      | some u => simp [hc, hfind]
    · simp [hc]

/-- Witness for `refresh_auth_conditions`: an unverifiable credential on an
empty user table. -/
theorem refresh_auth_conditions_witness :
    refresh none [] = .error (.unauthorized "Cannot refresh session") :=
  (refresh_auth_conditions none []).1.resolve_right (by simp [refresh])

/-- C9: `signup` with a taken email fails with `AlreadyExists`
(`BadRequestException` with message "User already exists") and creates no
user; on success the password column of the stored record holds only the
salted hash
(`bcrypt.hash(password, 10)`), and the response carries the
password-stripped `UserModel`; likewise every successful `signin` response
carries only the password-stripped `UserModel` (the `UserModel` type has no
password field, so neither response can contain the plaintext or the
stored hash). -/
theorem signup_password_handling (users : List User)
    (name email password : String) (hash : String → Nat → String)
    (freshId : Nat) :
    (UserService.findOneByEmail users email ≠ none →
      signup users name email password hash freshId =
        .error (.badRequest "User already exists") ∧
      signupUsers users name email password hash freshId = users) ∧
    (UserService.findOneByEmail users email = none →
      ∃ created,
        signup users name email password hash freshId =
          .ok (users ++ [created], { user := toUserModel created }) ∧
        created.password = hash password 10 ∧
        toUserModel created =
          { id := freshId, name := some name, email := email
            avatar := none }) ∧
    (∀ email2 pw2 compare r, signin users email2 pw2 compare = .ok r →
      ∃ u, UserService.findOneByEmail users email2 = some u ∧
        r.user = toUserModel u) := by
  refine ⟨?_, ?_, ?_⟩
  · intro hne
    cases hfind : UserService.findOneByEmail users email with
    | none => exact absurd hfind hne
    | some u =>
      unfold signupUsers signup
      rw [hfind]
      exact ⟨rfl, rfl⟩
  · intro hnone
    unfold signup
    rw [hnone]
    exact ⟨_, rfl, rfl, rfl⟩
  · intro email2 pw2 compare r hs
    unfold signin at hs
    split at hs
    · exact absurd hs (by simp)
    · rename_i u heq
      split at hs
      · injection hs with h
        subst h
        exact ⟨u, heq, rfl⟩
      · exact absurd hs (by simp)

/-- Witness for `signup_password_handling`: signing up with the already
registered sample email fails and leaves the user table unchanged. -/
theorem signup_password_handling_witness :
    signup [exUser] "Bob" "alice@example.com" "pw"
        (fun p _ => p ++ "#hashed") 2 =
      .error (.badRequest "User already exists") ∧
    signupUsers [exUser] "Bob" "alice@example.com" "pw"
        (fun p _ => p ++ "#hashed") 2 = [exUser] :=
  (signup_password_handling [exUser] "Bob" "alice@example.com" "pw"
    (fun p _ => p ++ "#hashed") 2).1 (by decide)

/-- Helper: a keyed update leaves every record outside the target class
(`P`) untouched, provided records outside the class never carry the target
key and the update keeps the class membership of a record. -/
theorem filter_updateMyBook (l : List MyBook) (eid : Nat)
    (data : MyBook → MyBook) (P : MyBook → Bool)
    (hdata : ∀ b, P (data b) = P b)
    (hkey : ∀ b ∈ l, P b = false → (b.id == eid) = false) :
    (MyBooksService.updateMyBook l eid data).filter (fun b => !P b) =
      l.filter (fun b => !P b) := by
  unfold MyBooksService.updateMyBook
  induction l with
  | nil => rfl
  | cons hd tl ih =>
    have hkhd := hkey hd (List.mem_cons_self hd tl)
    have ihtl := ih (fun b hb => hkey b (List.mem_cons_of_mem hd hb))
    cases hid : hd.id == eid with
    | false =>
      rw [List.map_cons, hid, if_neg Bool.false_ne_true, List.filter_cons,
        List.filter_cons, ihtl]
    | true =>
      have hP : P hd = true := by
        by_contra hPc
        rw [Bool.not_eq_true] at hPc
        rw [hkhd hPc] at hid
        exact Bool.noConfusion hid
      rw [List.map_cons, hid, if_pos rfl, List.filter_cons, List.filter_cons,
        ihtl, hdata hd, hP, Bool.not_true, if_neg Bool.false_ne_true,
        if_neg Bool.false_ne_true]

/-- C10: on a store with distinct primary keys, the two mutating
reading-list handlers touch at most the single entry of the authenticated
(userId, bookId) pair: the user table is unchanged and the sub-list of
reading-list records not belonging to that pair (other users, other books)
is exactly unchanged. -/
theorem mutations_frame (db : DB) (userId : Nat) (bookId : String)
    (s : BookState) (catalog : String → GoogleBook) (freshId : Nat)
    (page : Int)
    (hids : (db.myBooks.map MyBook.id).Nodup) :
    ((addToMyBooks db userId bookId s catalog freshId).1.users = db.users ∧
     (addToMyBooks db userId bookId s catalog freshId).1.myBooks.filter
        (fun b => !(b.userId == userId && b.bookId == bookId)) =
       db.myBooks.filter
        (fun b => !(b.userId == userId && b.bookId == bookId))) ∧
    ((updateBookReadingDB db userId bookId page).users = db.users ∧
     (updateBookReadingDB db userId bookId page).myBooks.filter
        (fun b => !(b.userId == userId && b.bookId == bookId)) =
       db.myBooks.filter
        (fun b => !(b.userId == userId && b.bookId == bookId))) := by
  have hkey : ∀ e : MyBook,
      MyBooksService.findOne db.myBooks bookId userId = some e →
      ∀ b ∈ db.myBooks,
        (b.userId == userId && b.bookId == bookId) = false →
        (b.id == e.id) = false := by
    intro e hf b hb hPb
    have hmem : e ∈ db.myBooks := List.mem_of_find?_eq_some hf
    have hPe := List.find?_some hf
    simp only [Bool.and_eq_true, beq_iff_eq] at hPe
    rw [beq_eq_false_iff_ne]
    intro hideq
    have : b = e := List.inj_on_of_nodup_map hids hb hmem hideq
    subst this
    simp [hPe.1, hPe.2] at hPb
  constructor
  · constructor
    · unfold addToMyBooks
      cases hf : MyBooksService.findOne db.myBooks bookId userId <;> rfl
    · unfold addToMyBooks
      cases hf : MyBooksService.findOne db.myBooks bookId userId with
      | some e =>
        exact filter_updateMyBook db.myBooks e.id _ _ (fun b => rfl)
          (hkey e hf)
      | none =>
        simp
  · constructor
    · unfold updateBookReadingDB updateBookReading
      cases hf : MyBooksService.findOne db.myBooks bookId userId <;> rfl
    · unfold updateBookReadingDB updateBookReading
      cases hf : MyBooksService.findOne db.myBooks bookId userId with
      | some e =>
        exact filter_updateMyBook db.myBooks e.id _ _ (fun b => rfl)
          (hkey e hf)
      | none =>
        rfl

/-- Witness for `mutations_frame` on the sample store. -/
theorem mutations_frame_witness :
    ((addToMyBooks exDB 1 "b1" .READ (fun _ => exBook) 9).1.users =
        exDB.users ∧
     (addToMyBooks exDB 1 "b1" .READ (fun _ => exBook) 9).1.myBooks.filter
        (fun b => !(b.userId == 1 && b.bookId == "b1")) =
       exDB.myBooks.filter
        (fun b => !(b.userId == 1 && b.bookId == "b1"))) ∧
    ((updateBookReadingDB exDB 1 "b1" 42).users = exDB.users ∧
     (updateBookReadingDB exDB 1 "b1" 42).myBooks.filter
        (fun b => !(b.userId == 1 && b.bookId == "b1")) =
       exDB.myBooks.filter
        (fun b => !(b.userId == 1 && b.bookId == "b1"))) :=
  mutations_frame exDB 1 "b1" .READ (fun _ => exBook) 9 42 (by decide)

end Devbooks
